import Mathlib

/-!
Shallow embedding of the Kanban board client (src/App.tsx = KanbanBoard,
src/components/Column.tsx, src/components/Card.tsx).

The remote task store (Supabase) is external to the repository; each
handler therefore takes the outcome of its remote call as an explicit
parameter (`Except String _`, the error string being the surfaced
message), and returns, besides the new local state, the list of remote
calls it issued and the list of toast notifications it emitted, so that
"no remote call is made" and "a failure notification is surfaced" are
statable.

JavaScript `String.prototype.toLowerCase` / `trim` / `includes` are
embedded as `String.toLower` / `String.trim` / infix-of on the
underlying character lists; these agree on the ASCII inputs the board
uses.
-/

namespace Kanban

/-- The priority union type (low | medium | high) from the `Task` type in
KanbanBoard.tsx. -/
inductive Priority where
  | low
  | medium
  | high
deriving DecidableEq, Repr

/-- The `Task` record type of KanbanBoard.tsx: `{ id, title, description,
status, priority, assignee? }`. -/
structure Task where
  id : String
  title : String
  description : String
  status : String
  priority : Priority
  assignee : Option String
deriving DecidableEq, Repr

/-- `const defaultColumns` of KanbanBoard.tsx: the three fixed column
identifiers Todo, In Progress, Done. -/
def defaultColumns : List String := ["Todo", "In Progress", "Done"]

/-- JavaScript `s.toLowerCase()` (ASCII-adequate model): lower-case each
character. -/
def jsToLower (s : String) : String :=
  String.mk (s.data.map Char.toLower)

/-- JavaScript `s.trim()` (ASCII-adequate model): strip leading and
trailing whitespace characters. -/
def jsTrim (s : String) : String :=
  String.mk
    (((s.data.dropWhile Char.isWhitespace).reverse.dropWhile
        Char.isWhitespace).reverse)

/-- JavaScript `s.includes(sub)`: `sub` occurs contiguously in `s`. -/
def strIncludes (s sub : String) : Bool :=
  decide (List.IsInfix sub.data s.data)

/-- `filteredTasks = tasks.filter(task =>
task.title.toLowerCase().includes(searchQuery.toLowerCase()))`. -/
def filteredTasks (tasks : List Task) (searchQuery : String) : List Task :=
  tasks.filter (fun task => strIncludes (jsToLower task.title) (jsToLower searchQuery))

/-- One column's slice of `tasksByColumn`: `filteredTasks.filter(task =>
task.status.toLowerCase() === columnId.toLowerCase())`. -/
def tasksByColumn (tasks : List Task) (searchQuery : String)
    (columnId : String) : List Task :=
  (filteredTasks tasks searchQuery).filter
    (fun task => jsToLower task.status = jsToLower columnId)

/-- A toast notification (`toast.success` / `toast.error`). -/
inductive Toast where
  | success (msg : String)
  | error (msg : String)
deriving DecidableEq, Repr

/-- The candidate record built by `handleAddTask` before insertion:
title, description, status = columnId, priority = medium — note it
carries no client-generated `id`. -/
structure NewTask where
  title : String
  description : String
  status : String
  priority : Priority
deriving DecidableEq, Repr

/-- `Partial<Task>` as used by `handleUpdateTask`: each field is present
(`some`) or absent (`none`). -/
structure TaskUpdates where
  id : Option String
  title : Option String
  description : Option String
  status : Option String
  priority : Option Priority
  assignee : Option (Option String)
deriving DecidableEq, Repr

/-- The `Partial<Task>` containing only a `description` field. -/
def TaskUpdates.descriptionOnly (d : String) : TaskUpdates :=
  ⟨none, none, some d, none, none, none⟩

/-- The JavaScript object spread `{ ...task, ...updates }`: fields present
in `updates` override, all others are taken from `task`. -/
def applyUpdates (task : Task) (u : TaskUpdates) : Task :=
  { id := u.id.getD task.id
    title := u.title.getD task.title
    description := u.description.getD task.description
    status := u.status.getD task.status
    priority := u.priority.getD task.priority
    assignee := u.assignee.getD task.assignee }

/-- A remote mutation issued to the store. -/
inductive RemoteCall where
  | insert (candidate : NewTask)
  | update (id : String) (updates : TaskUpdates)
  | updateStatus (id : String) (status : String)
  | delete (id : String)
deriving DecidableEq, Repr

/-- The KanbanBoard component state relevant to the claims:
`tasks`, `activeId`, `searchQuery`. -/
structure BoardState where
  tasks : List Task
  activeId : Option String
  searchQuery : String
deriving DecidableEq, Repr

/-- `fetchTasks` local-state step: on success stores `data || []`
(where `data` may be null), on failure leaves the collection as it was
and surfaces an error toast. -/
def fetchTasks (tasks : List Task) (remote : Except String (Option (List Task))) :
    List Task × List Toast :=
  match remote with
  | Except.ok data => (data.getD [], [])
  | Except.error e => (tasks, [Toast.error e])

/-- `handleDragEnd(event)` of KanbanBoard.tsx. `activeId` is `active.id`,
`over` is the drop target (`none` when `!over`), `remote` is the outcome
of the conditional status update. Mirrors the source: early return when
there is no drop target, `tasks.find(task => task.id === active.id)`,
the guard `activeTask.status !== overColumn` (case-sensitive), remote
update then local map on success, error toast on failure, and
`setActiveId(null)` at the end (not reached by the early return). -/
def handleDragEnd (s : BoardState) (activeId : String) (over : Option String)
    (remote : Except String Unit) :
    BoardState × List RemoteCall × List Toast :=
  match over with
  | none => (s, [], [])
  | some overColumn =>
    match s.tasks.find? (fun task => task.id = activeId) with
    | some activeTask =>
      if activeTask.status ≠ overColumn then
        match remote with
        | Except.ok _ =>
          ({ s with
              tasks := s.tasks.map (fun task =>
                if task.id = activeTask.id then
                  { task with status := overColumn }
                else task)
              activeId := none },
           [RemoteCall.updateStatus activeTask.id overColumn],
           [Toast.success "Task moved successfully"])
        | Except.error e =>
          ({ s with activeId := none },
           [RemoteCall.updateStatus activeTask.id overColumn],
           [Toast.error e])
      else
        ({ s with activeId := none }, [], [])
    | none => ({ s with activeId := none }, [], [])

/-- `handleAddTask(columnId, title, description)` of KanbanBoard.tsx:
builds the candidate record (title, description, status = columnId,
priority = medium), inserts it remotely, and on success with returned
data appends the returned record: `setTasks([...tasks, data])`. -/
def handleAddTask (tasks : List Task) (columnId title description : String)
    (remote : Except String (Option Task)) :
    List Task × List RemoteCall × List Toast :=
  let newTask : NewTask := ⟨title, description, columnId, Priority.medium⟩
  match remote with
  | Except.ok (some data) =>
    (tasks ++ [data], [RemoteCall.insert newTask],
     [Toast.success "Task created successfully"])
  | Except.ok none =>
    (tasks, [RemoteCall.insert newTask], [])
  | Except.error e =>
    (tasks, [RemoteCall.insert newTask], [Toast.error e])

/-- `handleDeleteTask(taskId)` of KanbanBoard.tsx: remote delete, then on
success `setTasks(tasks.filter(task => task.id !== taskId))`. -/
def handleDeleteTask (tasks : List Task) (taskId : String)
    (remote : Except String Unit) :
    List Task × List RemoteCall × List Toast :=
  match remote with
  | Except.ok _ =>
    (tasks.filter (fun task => task.id ≠ taskId), [RemoteCall.delete taskId],
     [Toast.success "Task deleted successfully"])
  | Except.error e =>
    (tasks, [RemoteCall.delete taskId], [Toast.error e])

/-- `handleUpdateTask(taskId, updates)` of KanbanBoard.tsx: remote update,
then on success `setTasks(tasks.map(task => task.id === taskId ?
{ ...task, ...updates } : task))`. -/
def handleUpdateTask (tasks : List Task) (taskId : String) (u : TaskUpdates)
    (remote : Except String Unit) :
    List Task × List RemoteCall × List Toast :=
  match remote with
  | Except.ok _ =>
    (tasks.map (fun task => if task.id = taskId then applyUpdates task u else task),
     [RemoteCall.update taskId u],
     [Toast.success "Task updated successfully"])
  | Except.error e =>
    (tasks, [RemoteCall.update taskId u], [Toast.error e])

namespace Column

/-- `handleAddTask` of Column.tsx: `if (newTaskTitle.trim()) {
onAddTask(newTaskTitle.trim(), newTaskDescription.trim()); ... }` —
returns the forwarded (title, description) pair, or `none` when the
trimmed title is empty (JavaScript falsiness of the empty string). -/
def handleAddTask (newTaskTitle newTaskDescription : String) :
    Option (String × String) :=
  if jsTrim newTaskTitle ≠ "" then
    some (jsTrim newTaskTitle, jsTrim newTaskDescription)
  else
    none

/-- The `disabled={!newTaskTitle.trim()}` condition on the Add Task
button of Column.tsx. -/
def addButtonDisabled (newTaskTitle : String) : Bool :=
  jsTrim newTaskTitle = ""

end Column

/-- A full add-form submission: the Column handler decides whether to
forward, and, when it forwards, the board's `handleAddTask` runs with
the trimmed fields. When the Column handler declines, no board handler
runs and no remote call is issued. -/
def submitAddForm (tasks : List Task) (columnId newTaskTitle newTaskDescription : String)
    (remote : Except String (Option Task)) :
    List Task × List RemoteCall × List Toast :=
  match Column.handleAddTask newTaskTitle newTaskDescription with
  | none => (tasks, [], [])
  | some (title, description) =>
    handleAddTask tasks columnId title description remote

/-- The multiset of ids of the local collection. -/
def taskIds (tasks : List Task) : List String :=
  tasks.map Task.id

/-- A sample concrete record used to instantiate the theorems. -/
def sampleTask : Task := ⟨"1", "a", "old", "Todo", Priority.low, some "bob"⟩

/-- C1 (counterexample): a task whose stored status is "todo" is rendered
in (and only in) the "Todo" column, since column membership is
case-insensitive; yet dropping it on that very column — its own current
column — issues a remote status update and changes the local collection,
because the no-op guard in `handleDragEnd` compares status and column
identifier case-sensitively. -/
theorem C1_noop_counterexample :
    (let t : Task := ⟨"1", "a", "", "todo", Priority.medium, none⟩
     let s : BoardState := ⟨[t], some "1", ""⟩
     tasksByColumn s.tasks s.searchQuery "Todo" = [t] ∧
     tasksByColumn s.tasks s.searchQuery "In Progress" = [] ∧
     tasksByColumn s.tasks s.searchQuery "Done" = [] ∧
     (handleDragEnd s "1" (some "Todo") (Except.ok ())).2.1 ≠ [] ∧
     (handleDragEnd s "1" (some "Todo") (Except.ok ())).1.tasks ≠ s.tasks) := by
  decide

/-- C1 (amended): if the dragged task, looked up by identifier in the
current collection, has a status that is string-equal (case-sensitively)
to the drop-target column identifier, then `handleDragEnd` issues no
remote call, emits no toast, and leaves the local task collection
unchanged (only the currently-dragged identifier is cleared). -/
theorem C1_dragEnd_same_column_noop (s : BoardState) (activeId overColumn : String)
    (remote : Except String Unit) (t : Task)
    (hfind : s.tasks.find? (fun task => task.id = activeId) = some t)
    (hstatus : t.status = overColumn) :
    handleDragEnd s activeId (some overColumn) remote =
      ({ s with activeId := none }, [], []) := by
  unfold handleDragEnd
  rw [hfind]
  simp [hstatus]

/-- C1 (witness): concrete instance of the amended no-op theorem. -/
theorem C1_dragEnd_same_column_noop_witness :
    handleDragEnd ⟨[⟨"1", "a", "", "Todo", Priority.medium, none⟩], some "1", ""⟩
        "1" (some "Todo") (Except.ok ()) =
      (⟨[⟨"1", "a", "", "Todo", Priority.medium, none⟩], none, ""⟩, [], []) :=
  C1_dragEnd_same_column_noop
    ⟨[⟨"1", "a", "", "Todo", Priority.medium, none⟩], some "1", ""⟩
    "1" "Todo" (Except.ok ())
    ⟨"1", "a", "", "Todo", Priority.medium, none⟩ (by decide) rfl

/-- C2: contrary to the claim, the currently-dragged identifier is NOT
cleared at the end of every drag gesture: when the drop has no valid
target (`over` is null), `handleDragEnd` returns before reaching
`setActiveId(null)`, leaving `activeId` set. -/
theorem C2_activeId_not_cleared_without_target :
    (handleDragEnd ⟨[⟨"1", "a", "", "Todo", Priority.medium, none⟩], some "1", ""⟩
        "1" none (Except.ok ())).1.activeId = some "1" := by
  decide

/-- C3: every post-load mutation handler, on remote failure, leaves the
local task collection exactly as it was before the attempted mutation
and surfaces a failure notification; in particular a failed
cross-column drop (the drag handler, whenever it issues a remote call)
leaves the dragged task's local status unchanged. -/
theorem C3_failure_rollback (tasks : List Task) (s : BoardState)
    (activeId columnId title description taskId : String)
    (u : TaskUpdates) (over : Option String) (e : String) :
    handleAddTask tasks columnId title description (Except.error e) =
      (tasks, [RemoteCall.insert ⟨title, description, columnId, Priority.medium⟩],
       [Toast.error e]) ∧
    handleUpdateTask tasks taskId u (Except.error e) =
      (tasks, [RemoteCall.update taskId u], [Toast.error e]) ∧
    handleDeleteTask tasks taskId (Except.error e) =
      (tasks, [RemoteCall.delete taskId], [Toast.error e]) ∧
    (handleDragEnd s activeId over (Except.error e)).1.tasks = s.tasks ∧
    ((handleDragEnd s activeId over (Except.error e)).2.1 ≠ [] →
      (handleDragEnd s activeId over (Except.error e)).2.2 = [Toast.error e]) := by
  refine ⟨rfl, rfl, rfl, ?_, ?_⟩ <;>
    · unfold handleDragEnd
      cases over with
      | none => simp
      | some overColumn =>
        cases hfind : s.tasks.find? (fun task => task.id = activeId) with
        | none => simp
        | some t =>
          by_cases hstatus : t.status ≠ overColumn <;> simp [hstatus]

/-- C3 (witness): concrete instance of the failure-rollback theorem. -/
theorem C3_failure_rollback_witness :
    handleAddTask [] "Todo" "t" "d" (Except.error "boom") =
      ([], [RemoteCall.insert ⟨"t", "d", "Todo", Priority.medium⟩],
       [Toast.error "boom"]) ∧
    handleUpdateTask [] "1" (TaskUpdates.descriptionOnly "x") (Except.error "boom") =
      ([], [RemoteCall.update "1" (TaskUpdates.descriptionOnly "x")],
       [Toast.error "boom"]) ∧
    handleDeleteTask [] "1" (Except.error "boom") =
      ([], [RemoteCall.delete "1"], [Toast.error "boom"]) ∧
    (handleDragEnd ⟨[⟨"1", "a", "", "Todo", Priority.medium, none⟩], some "1", ""⟩
        "1" (some "Done") (Except.error "boom")).1.tasks =
      (⟨[⟨"1", "a", "", "Todo", Priority.medium, none⟩], some "1", ""⟩ : BoardState).tasks ∧
    ((handleDragEnd ⟨[⟨"1", "a", "", "Todo", Priority.medium, none⟩], some "1", ""⟩
        "1" (some "Done") (Except.error "boom")).2.1 ≠ [] →
      (handleDragEnd ⟨[⟨"1", "a", "", "Todo", Priority.medium, none⟩], some "1", ""⟩
        "1" (some "Done") (Except.error "boom")).2.2 = [Toast.error "boom"]) :=
  C3_failure_rollback [] ⟨[⟨"1", "a", "", "Todo", Priority.medium, none⟩], some "1", ""⟩
    "1" "Todo" "t" "d" "1" (TaskUpdates.descriptionOnly "x") (some "Done") "boom"

/-- C4: a task of the local collection is a member of a column's computed
task list iff its status case-insensitively equals the column identifier
and its title case-insensitively contains the search query as a
contiguous substring; moreover the computed list is a sublist of the
stored collection (a pure view — the stored collection is not
modified). -/
theorem C4_column_membership (tasks : List Task) (q c : String) (t : Task)
    (ht : t ∈ tasks) :
    (t ∈ tasksByColumn tasks q c ↔
      (jsToLower t.status = jsToLower c ∧
        List.IsInfix (jsToLower q).data (jsToLower t.title).data)) ∧
    List.Sublist (tasksByColumn tasks q c) tasks := by
  constructor
  · simp [tasksByColumn, filteredTasks, List.mem_filter, strIncludes, ht, and_comm]
  · exact (List.filter_sublist _).trans (List.filter_sublist _)

/-- C4 (witness): concrete instance of the column-membership theorem. -/
theorem C4_column_membership_witness :
    ((⟨"1", "Alpha", "", "todo", Priority.medium, none⟩ : Task) ∈
        tasksByColumn [⟨"1", "Alpha", "", "todo", Priority.medium, none⟩] "alp" "Todo" ↔
      (jsToLower (Task.status ⟨"1", "Alpha", "", "todo", Priority.medium, none⟩) =
          jsToLower "Todo" ∧
        List.IsInfix (jsToLower "alp").data
          (jsToLower (Task.title ⟨"1", "Alpha", "", "todo", Priority.medium, none⟩)).data)) ∧
    List.Sublist
      (tasksByColumn [⟨"1", "Alpha", "", "todo", Priority.medium, none⟩] "alp" "Todo")
      [⟨"1", "Alpha", "", "todo", Priority.medium, none⟩] :=
  C4_column_membership [⟨"1", "Alpha", "", "todo", Priority.medium, none⟩] "alp" "Todo"
    ⟨"1", "Alpha", "", "todo", Priority.medium, none⟩ (by decide)

/-- C5: when the remote insert succeeds and returns the canonical record
(the submitted candidate fields with a store-assigned id, per the store
contract), the new local collection is the prior collection with exactly
that record appended as its last element: its status is the target
column, its priority is medium, its id is the store-returned id (the
submitted candidate carries no client-generated id), and all previously
present tasks keep their positions. -/
theorem C5_add_appends_canonical (tasks : List Task)
    (columnId title description storeId : String) (d : Task)
    (hstatus : d.status = columnId) (hprio : d.priority = Priority.medium)
    (hid : d.id = storeId) :
    (handleAddTask tasks columnId title description (Except.ok (some d))).1 =
      tasks ++ [d] ∧
    (handleAddTask tasks columnId title description (Except.ok (some d))).1.getLast? =
      some d ∧
    d.status = columnId ∧ d.priority = Priority.medium ∧ d.id = storeId ∧
    (handleAddTask tasks columnId title description (Except.ok (some d))).1.take
      tasks.length = tasks := by
  refine ⟨rfl, ?_, hstatus, hprio, hid, ?_⟩
  · show (tasks ++ [d]).getLast? = some d
    simp
  · show (tasks ++ [d]).take tasks.length = tasks
    simp

/-- C5 (witness): concrete instance of the add-append theorem, with the
store returning id 42 for the candidate titled Buy milk. -/
theorem C5_add_appends_canonical_witness :
    (handleAddTask [] "Todo" "Buy milk" "" (Except.ok
        (some ⟨"42", "Buy milk", "", "Todo", Priority.medium, none⟩))).1 =
      [] ++ [⟨"42", "Buy milk", "", "Todo", Priority.medium, none⟩] ∧
    (handleAddTask [] "Todo" "Buy milk" "" (Except.ok
        (some ⟨"42", "Buy milk", "", "Todo", Priority.medium, none⟩))).1.getLast? =
      some ⟨"42", "Buy milk", "", "Todo", Priority.medium, none⟩ ∧
    Task.status ⟨"42", "Buy milk", "", "Todo", Priority.medium, none⟩ = "Todo" ∧
    Task.priority ⟨"42", "Buy milk", "", "Todo", Priority.medium, none⟩ =
      Priority.medium ∧
    Task.id ⟨"42", "Buy milk", "", "Todo", Priority.medium, none⟩ = "42" ∧
    (handleAddTask [] "Todo" "Buy milk" "" (Except.ok
        (some ⟨"42", "Buy milk", "", "Todo", Priority.medium, none⟩))).1.take
      (List.length ([] : List Task)) = [] :=
  C5_add_appends_canonical [] "Todo" "Buy milk" "" "42"
    ⟨"42", "Buy milk", "", "Todo", Priority.medium, none⟩ rfl rfl rfl

/-- Merging a description-only partial update leaves every other field of
the task unchanged. -/
theorem applyUpdates_descriptionOnly (t : Task) (d : String) :
    applyUpdates t (TaskUpdates.descriptionOnly d) =
      { t with description := d } :=
  rfl

/-- C6: a successful update of only the description, keyed by id, yields
a collection of the same length in which every position holds a task
with the same id, title, status, priority and assignee as before; a
task whose id differs from the key is entirely unchanged, and the
matched task keeps its position with only its description replaced. -/
theorem C6_update_preserves_frame (tasks : List Task) (taskId d : String) :
    (handleUpdateTask tasks taskId (TaskUpdates.descriptionOnly d)
        (Except.ok ())).1.length = tasks.length ∧
    ∀ (i : Nat) (hi : i < tasks.length)
      (hr : i < (handleUpdateTask tasks taskId (TaskUpdates.descriptionOnly d)
        (Except.ok ())).1.length),
      ((handleUpdateTask tasks taskId (TaskUpdates.descriptionOnly d)
          (Except.ok ())).1.get ⟨i, hr⟩).id = (tasks.get ⟨i, hi⟩).id ∧
      ((handleUpdateTask tasks taskId (TaskUpdates.descriptionOnly d)
          (Except.ok ())).1.get ⟨i, hr⟩).title = (tasks.get ⟨i, hi⟩).title ∧
      ((handleUpdateTask tasks taskId (TaskUpdates.descriptionOnly d)
          (Except.ok ())).1.get ⟨i, hr⟩).status = (tasks.get ⟨i, hi⟩).status ∧
      ((handleUpdateTask tasks taskId (TaskUpdates.descriptionOnly d)
          (Except.ok ())).1.get ⟨i, hr⟩).priority = (tasks.get ⟨i, hi⟩).priority ∧
      ((handleUpdateTask tasks taskId (TaskUpdates.descriptionOnly d)
          (Except.ok ())).1.get ⟨i, hr⟩).assignee = (tasks.get ⟨i, hi⟩).assignee ∧
      ((tasks.get ⟨i, hi⟩).id ≠ taskId →
        (handleUpdateTask tasks taskId (TaskUpdates.descriptionOnly d)
          (Except.ok ())).1.get ⟨i, hr⟩ = tasks.get ⟨i, hi⟩) ∧
      ((tasks.get ⟨i, hi⟩).id = taskId →
        (handleUpdateTask tasks taskId (TaskUpdates.descriptionOnly d)
          (Except.ok ())).1.get ⟨i, hr⟩ =
          { tasks.get ⟨i, hi⟩ with description := d }) := by
  constructor
  · simp [handleUpdateTask]
  · intro i hi hr
    have hget : (handleUpdateTask tasks taskId (TaskUpdates.descriptionOnly d)
        (Except.ok ())).1.get ⟨i, hr⟩ =
        (fun task => if task.id = taskId then
            applyUpdates task (TaskUpdates.descriptionOnly d) else task)
          (tasks.get ⟨i, hi⟩) := by
      simp [handleUpdateTask, List.getElem_map]
    rw [hget]
    simp only [List.get_eq_getElem]
    by_cases hid : tasks[i].id = taskId <;>
      simp [hid, applyUpdates_descriptionOnly]

/-- C6 (witness): concrete instance of the edit-frame theorem. -/
theorem C6_update_preserves_frame_witness :
    (handleUpdateTask [sampleTask] "1"
        (TaskUpdates.descriptionOnly "new") (Except.ok ())).1.length =
      [sampleTask].length ∧
    ∀ (i : Nat) (hi : i < [sampleTask].length)
      (hr : i < (handleUpdateTask [sampleTask]
        "1" (TaskUpdates.descriptionOnly "new") (Except.ok ())).1.length),
      ((handleUpdateTask [sampleTask] "1"
          (TaskUpdates.descriptionOnly "new") (Except.ok ())).1.get ⟨i, hr⟩).id =
        ([sampleTask].get ⟨i, hi⟩).id ∧
      ((handleUpdateTask [sampleTask] "1"
          (TaskUpdates.descriptionOnly "new") (Except.ok ())).1.get ⟨i, hr⟩).title =
        ([sampleTask].get ⟨i, hi⟩).title ∧
      ((handleUpdateTask [sampleTask] "1"
          (TaskUpdates.descriptionOnly "new") (Except.ok ())).1.get ⟨i, hr⟩).status =
        ([sampleTask].get ⟨i, hi⟩).status ∧
      ((handleUpdateTask [sampleTask] "1"
          (TaskUpdates.descriptionOnly "new") (Except.ok ())).1.get ⟨i, hr⟩).priority =
        ([sampleTask].get ⟨i, hi⟩).priority ∧
      ((handleUpdateTask [sampleTask] "1"
          (TaskUpdates.descriptionOnly "new") (Except.ok ())).1.get ⟨i, hr⟩).assignee =
        ([sampleTask].get ⟨i, hi⟩).assignee ∧
      (([sampleTask].get ⟨i, hi⟩).id ≠ "1" →
        (handleUpdateTask [sampleTask] "1"
          (TaskUpdates.descriptionOnly "new") (Except.ok ())).1.get ⟨i, hr⟩ =
          [sampleTask].get ⟨i, hi⟩) ∧
      (([sampleTask].get ⟨i, hi⟩).id = "1" →
        (handleUpdateTask [sampleTask] "1"
          (TaskUpdates.descriptionOnly "new") (Except.ok ())).1.get ⟨i, hr⟩ =
          { [sampleTask].get ⟨i, hi⟩ with description := "new" }) :=
  C6_update_preserves_frame [sampleTask] "1" "new"

/-- C7: an add-form submission whose title trims to empty forwards
nothing — no remote call is issued and the local collection gains no
element (and the Add Task button is disabled); a submission whose title
trims non-empty forwards the trimmed title and trimmed description to
the create operation. -/
theorem C7_add_form_trimming (tasks : List Task)
    (columnId title description : String)
    (remote : Except String (Option Task)) :
    (jsTrim title = "" →
      submitAddForm tasks columnId title description remote = (tasks, [], []) ∧
      Column.addButtonDisabled title = true) ∧
    (jsTrim title ≠ "" →
      Column.handleAddTask title description =
        some (jsTrim title, jsTrim description) ∧
      submitAddForm tasks columnId title description remote =
        handleAddTask tasks columnId (jsTrim title) (jsTrim description) remote) := by
  constructor
  · intro h
    constructor
    · simp [submitAddForm, Column.handleAddTask, h]
    · simp [Column.addButtonDisabled, h]
  · intro h
    constructor
    · simp [Column.handleAddTask, h]
    · simp [submitAddForm, Column.handleAddTask, h]

/-- C7 (witness): concrete instance of the add-form trimming theorem at a
whitespace-only title. -/
theorem C7_add_form_trimming_witness :
    (jsTrim "   " = "" →
      submitAddForm [] "Todo" "   " "x" (Except.ok none) = ([], [], []) ∧
      Column.addButtonDisabled "   " = true) ∧
    (jsTrim "   " ≠ "" →
      Column.handleAddTask "   " "x" = some (jsTrim "   ", jsTrim "x") ∧
      submitAddForm [] "Todo" "   " "x" (Except.ok none) =
        handleAddTask [] "Todo" (jsTrim "   ") (jsTrim "x") (Except.ok none)) :=
  C7_add_form_trimming [] "Todo" "   " "x" (Except.ok none)

/-- C8: the local-state removal step of delete, applied with an id not
present in the collection, is the identity on the collection (the filter
matches nothing). -/
theorem C8_delete_absent_id (tasks : List Task) (taskId : String)
    (h : taskId ∉ taskIds tasks) :
    (handleDeleteTask tasks taskId (Except.ok ())).1 = tasks := by
  simp only [handleDeleteTask]
  rw [List.filter_eq_self]
  intro t htm
  simp only [ne_eq, decide_eq_true_eq]
  intro heq
  exact h (heq ▸ List.mem_map_of_mem Task.id htm)

/-- C8 (witness): deleting id 2 from a collection holding only id 1
leaves the collection unchanged. -/
theorem C8_delete_absent_id_witness :
    (handleDeleteTask [sampleTask] "2" (Except.ok ())).1 = [sampleTask] :=
  C8_delete_absent_id [sampleTask] "2" (by decide)

/-- C9: pairwise-distinct ids are an invariant of the local collection:
a load whose fetched data has distinct ids, a successful add whose
store-returned id is fresh, a successful edit (edits never carry an id
field), a successful delete, and a drag completion each preserve
distinctness of the ids. -/
theorem C9_id_uniqueness (tasks storeData : List Task)
    (columnId title description taskId : String) (d : Task) (u : TaskUpdates)
    (s : BoardState) (activeId : String) (over : Option String)
    (remote : Except String Unit) :
    (List.Nodup (taskIds storeData) →
      List.Nodup (taskIds (fetchTasks tasks (Except.ok (some storeData))).1)) ∧
    (List.Nodup (taskIds tasks) → d.id ∉ taskIds tasks →
      List.Nodup (taskIds (handleAddTask tasks columnId title description
        (Except.ok (some d))).1)) ∧
    (u.id = none → List.Nodup (taskIds tasks) →
      List.Nodup (taskIds (handleUpdateTask tasks taskId u (Except.ok ())).1)) ∧
    (List.Nodup (taskIds tasks) →
      List.Nodup (taskIds (handleDeleteTask tasks taskId (Except.ok ())).1)) ∧
    (List.Nodup (taskIds s.tasks) →
      List.Nodup (taskIds (handleDragEnd s activeId over remote).1.tasks)) := by
  refine ⟨?_, ?_, ?_, ?_, ?_⟩
  · intro h
    simpa [fetchTasks] using h
  · intro h hfresh
    simp [handleAddTask, taskIds, List.nodup_append] at h hfresh ⊢
    exact ⟨h, fun x hx hxid => hfresh x hx hxid⟩
  · intro hu h
    have hmap : (Task.id ∘ fun task => if task.id = taskId then
        applyUpdates task u else task) = Task.id := by
      funext task
      by_cases hid : task.id = taskId <;>
        simp [Function.comp, hid, applyUpdates, hu]
    simpa [handleUpdateTask, taskIds, List.map_map, hmap] using h
  · intro h
    exact List.Nodup.sublist
      (List.Sublist.map Task.id (List.filter_sublist tasks)) h
  · intro h
    unfold handleDragEnd
    cases over with
    | none => simpa using h
    | some overColumn =>
      cases hfind : s.tasks.find? (fun task => task.id = activeId) with
      | none => simpa using h
      | some t =>
        by_cases hstatus : t.status ≠ overColumn
        · cases remote with
          | ok v =>
            have hmap : (Task.id ∘ fun task => if task.id = t.id then
                { task with status := overColumn } else task) = Task.id := by
              funext task
              by_cases hid : task.id = t.id <;> simp [Function.comp, hid]
            simpa [hstatus, taskIds, List.map_map, hmap] using h
          | error e => simpa [hstatus] using h
        · simpa [hstatus] using h

/-- C9 (witness): concrete instance of the id-uniqueness theorem. -/
theorem C9_id_uniqueness_witness :
    (List.Nodup (taskIds [sampleTask]) →
      List.Nodup (taskIds (fetchTasks [] (Except.ok (some [sampleTask]))).1)) ∧
    (List.Nodup (taskIds [sampleTask]) →
      Task.id ⟨"2", "b", "", "Done", Priority.high, none⟩ ∉ taskIds [sampleTask] →
      List.Nodup (taskIds (handleAddTask [sampleTask] "Done" "b" ""
        (Except.ok (some ⟨"2", "b", "", "Done", Priority.high, none⟩))).1)) ∧
    (TaskUpdates.id (TaskUpdates.descriptionOnly "x") = none →
      List.Nodup (taskIds [sampleTask]) →
      List.Nodup (taskIds (handleUpdateTask [sampleTask] "1"
        (TaskUpdates.descriptionOnly "x") (Except.ok ())).1)) ∧
    (List.Nodup (taskIds [sampleTask]) →
      List.Nodup (taskIds (handleDeleteTask [sampleTask] "1" (Except.ok ())).1)) ∧
    (List.Nodup (taskIds (BoardState.tasks ⟨[sampleTask], some "1", ""⟩)) →
      List.Nodup (taskIds (handleDragEnd ⟨[sampleTask], some "1", ""⟩ "1"
        (some "Done") (Except.ok ())).1.tasks)) :=
  C9_id_uniqueness [sampleTask] [sampleTask] "Done" "b" "" "1"
    ⟨"2", "b", "", "Done", Priority.high, none⟩ (TaskUpdates.descriptionOnly "x")
    ⟨[sampleTask], some "1", ""⟩ "1" (some "Done") (Except.ok ())

/-- C10: the column partition is disjoint — the three configured column
identifiers are pairwise distinct case-insensitively, and membership is
decided by case-insensitive equality with a task's status, so a task
belonging to the computed lists of two configured columns forces the two
columns to be the same. -/
theorem C10_columns_disjoint (tasks : List Task) (q : String) (t : Task)
    (c1 c2 : String) (h1 : c1 ∈ defaultColumns) (h2 : c2 ∈ defaultColumns)
    (m1 : t ∈ tasksByColumn tasks q c1) (m2 : t ∈ tasksByColumn tasks q c2) :
    c1 = c2 := by
  have e1 := (List.mem_filter.mp m1).2
  have e2 := (List.mem_filter.mp m2).2
  simp only [decide_eq_true_eq] at e1 e2
  have e : jsToLower c1 = jsToLower c2 := by rw [← e1, e2]
  simp only [defaultColumns, List.mem_cons, List.mem_singleton,
    List.not_mem_nil, or_false] at h1 h2
  rcases h1 with h1 | h1 | h1 <;> rcases h2 with h2 | h2 | h2 <;>
    subst h1 <;> subst h2 <;> first
      | rfl
      | (exfalso; revert e; decide)

/-- C10 (witness): concrete instance of the column-disjointness
theorem. -/
theorem C10_columns_disjoint_witness : ("Todo" : String) = "Todo" :=
  C10_columns_disjoint [sampleTask] "" sampleTask "Todo" "Todo"
    (by decide) (by decide) (by decide) (by decide)

end Kanban
